import Mathlib

/-!
Shallow embedding of the AOTY API service layer (`app/main.py` and
`app/config.py`).

Each FastAPI endpoint handler of `app/main.py` is embedded as a pure
function from the handler's query arguments, an environment `Env` holding
the outcomes of the scraper functions imported from
`app.scraper.aoty_scraper` (whose source is not part of this tree), and an
explicit service state `St` (the remote key-value cache as seen through
`get_cache`, plus the metrics counters and per-pipeline call counters), to
a transport-level result `Except HErr _` paired with the updated state.

The cache is modelled as `String → Option CVal`: `get_cache key` yields the
currently live (non-expired) value or `none`; `set_cache` overwrites the
entry.  TTL bookkeeping is abstracted away because no claim below concerns
freshness windows.  Python exceptions, as observed by the handlers'
`except` clauses, are modelled by `PyErr`: an `HTTPException` carries a
status and a detail and is re-raised unchanged by `except HTTPException:
raise`, any other exception is observable only through `str(e)`.
-/

/-- Modelled from the spec: the `Album` record of `app/models.py` (not under
`src/`); only its identity fields matter for the claims. -/
structure Album where
  title : String
  artist : String
  deriving DecidableEq

/-- Modelled from the spec: the `UserProfile` record of `app/models.py`
(not under `src/`). -/
structure UserProfile where
  username : String
  deriving DecidableEq

/-- Modelled from the spec: the `SearchResult` record of `app/models.py`
(not under `src/`): title, artist and canonical URL. -/
structure SearchResult where
  title : String
  artist : String
  url : String
  deriving DecidableEq

/-- A JSON-serializable value held in the cache: the `.dict()` forms written
by the four endpoints.  The Pydantic round trip `Album(**album.dict())` is
modelled as the identity on the record. -/
inductive CVal where
  | albumV (a : Album)
  | albumListV (l : List Album)
  | userV (u : UserProfile)
  | searchListV (l : List SearchResult)
  deriving DecidableEq

/-- A Python exception as observed by the handlers: either a FastAPI
`HTTPException` (status code and detail), or any other exception, of which
the handlers use only the message string `str(e)`. -/
inductive PyErr where
  | httpEx (status : Nat) (detail : String)
  | exn (msg : String)
  deriving DecidableEq

/-- The string `str(e)` used in `detail=str(e)`. -/
def PyErr.str : PyErr → String
  | .httpEx c d => Nat.repr c ++ ": " ++ d
  | .exn m => m

/-- The transport-level error the API layer raises: an `HTTPException` with
a status code and a detail string. -/
structure HErr where
  status : Nat
  detail : String
  deriving DecidableEq

/-- Service state: the remote cache plus the metrics counters of
`app/utils/metrics.py` that `app/main.py` drives (`record_request` with a
hit or miss, `record_error`, `record_response_time` counted by `rtCount`),
and one invocation counter per scraper pipeline function. -/
structure St where
  cache : String → Option CVal
  hits : Nat
  misses : Nat
  errors : Nat
  rtCount : Nat
  locCalls : Nat
  scrapeCalls : Nat
  similarCalls : Nat
  searchCalls : Nat
  userCalls : Nat

/-- Outcomes of the five scraper functions a request may invoke:
`get_album_url` (returns `None` or a `(url, artist, title)` triple, and may
raise), `scrape_album`, `get_similar_albums`, `search_albums`,
`get_user_profile`. -/
structure Env where
  locate : String → String → Except PyErr (Option (String × String × String))
  scrape : String → String → String → Except PyErr Album
  similar : String → Nat → Except PyErr (List Album)
  search : String → Nat → Except PyErr (List SearchResult)
  userProfile : String → Except PyErr UserProfile

/-- The f-string `f"album:{artist}:{album}"` of `get_album_endpoint`. -/
def album_cache_key (artist album : String) : String :=
  "album:" ++ artist ++ ":" ++ album

/-- The f-string `f"similar:{artist}:{album}:{limit}"` of
`get_similar_albums_endpoint`. -/
def similar_cache_key (artist album : String) (limit : Nat) : String :=
  "similar:" ++ artist ++ ":" ++ album ++ ":" ++ Nat.repr limit

/-- The f-string `f"search:{query}:{limit}"` of `search_albums_endpoint`. -/
def search_cache_key (query : String) (limit : Nat) : String :=
  "search:" ++ query ++ ":" ++ Nat.repr limit

/-- The f-string `f"user:{username}"` of `get_user_endpoint`. -/
def user_cache_key (username : String) : String :=
  "user:" ++ username

/-- Python truthiness of a cached value, as used by the walrus hit tests
`(cached_result := await get_cache(cache_key))`: an empty cached list is
falsy and therefore treated as a miss; record dicts are non-empty, hence
truthy. -/
def CVal.truthy : CVal → Bool
  | .albumV _ => true
  | .albumListV l => !l.isEmpty
  | .userV _ => true
  | .searchListV l => !l.isEmpty

/-- The value of the hit test: the cached value when present and truthy,
otherwise `none`. -/
def cacheLookup (st : St) (key : String) : Option CVal :=
  match st.cache key with
  | some v => if v.truthy then some v else none
  | none => none

/-- `set_cache(key, value, ttl)`: overwrite the entry at `key`. -/
def setCache (st : St) (key : String) (v : CVal) : St :=
  { st with cache := fun k => if k = key then some v else st.cache k }

/-- The FastAPI validation `ge=1, le=10` on the `limit` query parameter of
`get_similar_albums_endpoint`. -/
def similar_limit_ok (l : Nat) : Bool :=
  decide (1 ≤ l) && decide (l ≤ 10)

/-- The FastAPI validation `ge=1, le=20` on the `limit` query parameter of
`search_albums_endpoint`. -/
def search_limit_ok (l : Nat) : Bool :=
  decide (1 ≤ l) && decide (l ≤ 20)

/-- `GET /album/` (`get_album_endpoint` of `app/main.py`): check the cache
unless `refresh`, else resolve the URL with `get_album_url` (a `None`
result raises `HTTPException(404, "Album not found")`), scrape the album,
write it back under `ALBUM_TTL` and record the response time.
`HTTPException`s are re-raised unchanged; any other exception is mapped to
status 503 with `str(e)` as detail after `record_error`. -/
def get_album_endpoint (env : Env) (artist album : String) (refresh : Bool)
    (st : St) : Except HErr Album × St :=
  match refresh, cacheLookup st (album_cache_key artist album) with
  | false, some (CVal.albumV a) =>
      (Except.ok a, { st with hits := st.hits + 1 })
  | false, some _ =>
      (Except.error ⟨503, "Album(**cached_result) raised"⟩,
        { st with hits := st.hits + 1, errors := st.errors + 1 })
  | _, _ =>
      let st1 := { st with misses := st.misses + 1, locCalls := st.locCalls + 1 }
      match env.locate artist album with
      | Except.error (PyErr.httpEx c d) => (Except.error ⟨c, d⟩, st1)
      | Except.error (PyErr.exn m) =>
          (Except.error ⟨503, m⟩, { st1 with errors := st1.errors + 1 })
      | Except.ok none => (Except.error ⟨404, "Album not found"⟩, st1)
      | Except.ok (some (url, artistName, title)) =>
          let st2 := { st1 with scrapeCalls := st1.scrapeCalls + 1 }
          match env.scrape url artistName title with
          | Except.error (PyErr.httpEx c d) => (Except.error ⟨c, d⟩, st2)
          | Except.error (PyErr.exn m) =>
              (Except.error ⟨503, m⟩, { st2 with errors := st2.errors + 1 })
          | Except.ok albumData =>
              let st3 := setCache st2 (album_cache_key artist album)
                (CVal.albumV albumData)
              (Except.ok albumData, { st3 with rtCount := st3.rtCount + 1 })

/-- `GET /album/similar/` (`get_similar_albums_endpoint` of `app/main.py`):
validate `limit`, check the cache unless `refresh`, else resolve the URL
(`None` raises 404), fetch the similar albums, write the list back under
`SIMILAR_TTL` and record the response time. -/
def get_similar_albums_endpoint (env : Env) (artist album : String)
    (refresh : Bool) (limit : Nat) (st : St) :
    Except HErr (List Album) × St :=
  if similar_limit_ok limit then
    match refresh, cacheLookup st (similar_cache_key artist album limit) with
    | false, some (CVal.albumListV l) =>
        (Except.ok l, { st with hits := st.hits + 1 })
    | false, some _ =>
        (Except.error ⟨503, "Album(**album_data) raised"⟩,
          { st with hits := st.hits + 1, errors := st.errors + 1 })
    | _, _ =>
        let st1 := { st with misses := st.misses + 1, locCalls := st.locCalls + 1 }
        match env.locate artist album with
        | Except.error (PyErr.httpEx c d) => (Except.error ⟨c, d⟩, st1)
        | Except.error (PyErr.exn m) =>
            (Except.error ⟨503, m⟩, { st1 with errors := st1.errors + 1 })
        | Except.ok none => (Except.error ⟨404, "Album not found"⟩, st1)
        | Except.ok (some (url, _artistName, _title)) =>
            let st2 := { st1 with similarCalls := st1.similarCalls + 1 }
            match env.similar url limit with
            | Except.error (PyErr.httpEx c d) => (Except.error ⟨c, d⟩, st2)
            | Except.error (PyErr.exn m) =>
                (Except.error ⟨503, m⟩, { st2 with errors := st2.errors + 1 })
            | Except.ok albums =>
                let st3 := setCache st2 (similar_cache_key artist album limit)
                  (CVal.albumListV albums)
                (Except.ok albums, { st3 with rtCount := st3.rtCount + 1 })
  else (Except.error ⟨422, "Input should be between 1 and 10"⟩, st)

/-- `GET /search/` (`search_albums_endpoint` of `app/main.py`): validate
`limit`, check the cache (this endpoint has no `refresh` parameter), else
call `search_albums`, write the result list back under `SEARCH_TTL` and
record the response time.  This handler has no `except HTTPException`
clause: every exception, `HTTPException` included, is caught by
`except Exception` and mapped to 503 with `str(e)` as detail. -/
def search_albums_endpoint (env : Env) (query : String) (limit : Nat)
    (st : St) : Except HErr (List SearchResult) × St :=
  if search_limit_ok limit then
    match cacheLookup st (search_cache_key query limit) with
    | some (CVal.searchListV l) =>
        (Except.ok l, { st with hits := st.hits + 1 })
    | some _ =>
        (Except.error ⟨503, "SearchResult(**result) raised"⟩,
          { st with hits := st.hits + 1, errors := st.errors + 1 })
    | none =>
        let st1 := { st with misses := st.misses + 1,
                             searchCalls := st.searchCalls + 1 }
        match env.search query limit with
        | Except.error e =>
            (Except.error ⟨503, e.str⟩, { st1 with errors := st1.errors + 1 })
        | Except.ok results =>
            let st2 := setCache st1 (search_cache_key query limit)
              (CVal.searchListV results)
            (Except.ok results, { st2 with rtCount := st2.rtCount + 1 })
  else (Except.error ⟨422, "Input should be between 1 and 20"⟩, st)

/-- `GET /user/` (`get_user_endpoint` of `app/main.py`): check the cache
unless `refresh`, else call `get_user_profile` (which raises on failure —
the handler has no `None` check), write the profile back under `USER_TTL`
and record the response time. -/
def get_user_endpoint (env : Env) (username : String) (refresh : Bool)
    (st : St) : Except HErr UserProfile × St :=
  match refresh, cacheLookup st (user_cache_key username) with
  | false, some (CVal.userV u) =>
      (Except.ok u, { st with hits := st.hits + 1 })
  | false, some _ =>
      (Except.error ⟨503, "UserProfile(**cached_result) raised"⟩,
        { st with hits := st.hits + 1, errors := st.errors + 1 })
  | _, _ =>
      let st1 := { st with misses := st.misses + 1,
                           userCalls := st.userCalls + 1 }
      match env.userProfile username with
      | Except.error (PyErr.httpEx c d) => (Except.error ⟨c, d⟩, st1)
      | Except.error (PyErr.exn m) =>
          (Except.error ⟨503, m⟩, { st1 with errors := st1.errors + 1 })
      | Except.ok up =>
          let st2 := setCache st1 (user_cache_key username) (CVal.userV up)
          (Except.ok up, { st2 with rtCount := st2.rtCount + 1 })

/-- The `HEADERS` constant of `app/config.py`: the outbound header set
presented to the upstream site. -/
def HEADERS : List (String × String) :=
  [("Accept", "application/json, text/plain, */*"),
   ("Accept-Language", "en-US,en;q=0.9"),
   ("User-Agent",
    "Mozilla/5.0 (Windows NT 10.0; Win64; x64) AppleWebKit/537.36 (KHTML, like Gecko) Chrome/123.0.0.0 Safari/537.36")]

/-- Modelled from the spec: the scraper (`app/scraper/aoty_scraper.py`, not
under `src/`) presents the fixed header set `HEADERS` on every outbound
request, independent of the URL. -/
def headers_for (_url : String) : List (String × String) := HEADERS

/-- Modelled from the spec: `search_albums` of `app/scraper/aoty_scraper.py`
is not under `src/`; per the spec it returns at most `limit` `SearchResult`
entries ordered as provided by upstream, embedded as the `limit`-long
initial segment of the upstream result list. -/
def search_albums_model (upstream : String → List SearchResult)
    (query : String) (limit : Nat) : Except PyErr (List SearchResult) :=
  Except.ok ((upstream query).take limit)

/-- A concrete album record used as a fixture. -/
def album0 : Album := ⟨"OK Computer", "Radiohead"⟩

/-- A concrete user profile fixture. -/
def user0 : UserProfile := ⟨"evrynoiseatonce"⟩

/-- A concrete search result fixture. -/
def res0 : SearchResult :=
  ⟨"OK Computer", "Radiohead", "https://www.albumoftheyear.org/album/57-ok-computer.php"⟩

/-- A second search result fixture. -/
def res1 : SearchResult :=
  ⟨"Kid A", "Radiohead", "https://www.albumoftheyear.org/album/160-kid-a.php"⟩

/-- An environment in which every pipeline call succeeds. -/
def env0 : Env where
  locate := fun _ _ =>
    Except.ok (some ("https://www.albumoftheyear.org/album/57-ok-computer.php",
      "Radiohead", "OK Computer"))
  scrape := fun _ _ _ => Except.ok album0
  similar := fun _ _ => Except.ok [album0]
  search := fun _ _ => Except.ok [res0]
  userProfile := fun _ => Except.ok user0

/-- The service state with an empty cache and all counters zero. -/
def st0 : St :=
  { cache := fun _ => none, hits := 0, misses := 0, errors := 0, rtCount := 0,
    locCalls := 0, scrapeCalls := 0, similarCalls := 0, searchCalls := 0,
    userCalls := 0 }

/-- The zero state with a single cache entry. -/
def stWith (key : String) (v : CVal) : St :=
  { st0 with cache := fun k => if k = key then some v else none }

/-- C7: the outbound header set presented to the upstream site is fixed and
consists of exactly the three headers Accept, Accept-Language and
User-Agent; the set does not depend on the request URL. -/
theorem c7_headers_fixed :
    HEADERS.map Prod.fst = ["Accept", "Accept-Language", "User-Agent"] ∧
    ∀ u v : String, headers_for u = headers_for v :=
  ⟨rfl, fun _ _ => rfl⟩

/-- C1: counterexample — cache keys embed the identifying arguments
verbatim, with no lowercase normalization: the two case variants of the
same (artist, album) lookup, and of the same username, construct different
cache keys, and an album record cached under the first key is not seen by
the case-variant lookup, which takes the miss path. -/
theorem c1_counterexample :
    album_cache_key "Radiohead" "OK Computer" ≠
      album_cache_key "radiohead" "ok computer" ∧
    user_cache_key "EvryNoiseAtOnce" ≠ user_cache_key "evrynoiseatonce" ∧
    (get_album_endpoint env0 "radiohead" "ok computer" false
      (stWith (album_cache_key "Radiohead" "OK Computer")
        (CVal.albumV album0))).2.misses = 1 := by
  refine ⟨by decide, by decide, by decide⟩

/-- Two strings with the same character data are equal. -/
theorem string_data_eq {s t : String} (h : s.data = t.data) : s = t := by
  cases s; cases t; exact congrArg String.mk h

/-- Appending a common string on the left is cancellable. -/
theorem string_append_left_cancel {s t u : String} (h : s ++ t = s ++ u) :
    t = u := by
  have hd : (s ++ t).data = (s ++ u).data := by rw [h]
  simp only [String.data_append] at hd
  exact string_data_eq (List.append_cancel_left hd)

/-- Appending a common string on the left preserves and reflects
equality. -/
theorem string_append_left_cancel_iff (s t u : String) :
    s ++ t = s ++ u ↔ t = u :=
  ⟨string_append_left_cancel, fun h => by rw [h]⟩

/-- C1 (amended): cache keys are deterministic strings composed of the
resource kind and the identifying arguments taken verbatim (no lowercase
normalization): two album lookups construct the same key exactly when
the texts `artist ++ ":" ++ album` coincide, and two user lookups exactly
when the usernames coincide — lookups that differ in letter case therefore
use distinct keys and distinct cached records. -/
theorem c1_cache_key_verbatim (a1 b1 a2 b2 u1 u2 : String) :
    (album_cache_key a1 b1 = album_cache_key a2 b2 ↔
      a1 ++ ":" ++ b1 = a2 ++ ":" ++ b2) ∧
    (user_cache_key u1 = user_cache_key u2 ↔ u1 = u2) := by
  constructor
  · constructor
    · intro h
      have hd := congrArg String.data h
      simp only [album_cache_key, String.data_append, List.append_assoc] at hd
      apply string_data_eq
      simp only [String.data_append, List.append_assoc]
      exact List.append_cancel_left hd
    · intro h
      have hd := congrArg String.data h
      simp only [String.data_append, List.append_assoc] at hd
      apply string_data_eq
      simp only [album_cache_key, String.data_append, List.append_assoc]
      rw [hd]
  · simp only [user_cache_key]
    exact string_append_left_cancel_iff _ _ _

/-- C4: a request served from cache (refresh not set, truthy cached album)
returns the cached record as-is and the fetch pipeline is never invoked:
the locator and scraper call counters and the cache itself are
unchanged. -/
theorem c4_cache_hit_no_fetch (env : Env) (artist album : String) (st : St)
    (a : Album)
    (h : cacheLookup st (album_cache_key artist album) =
      some (CVal.albumV a)) :
    (get_album_endpoint env artist album false st).1 = Except.ok a ∧
    (get_album_endpoint env artist album false st).2.locCalls = st.locCalls ∧
    (get_album_endpoint env artist album false st).2.scrapeCalls =
      st.scrapeCalls ∧
    (get_album_endpoint env artist album false st).2.cache = st.cache := by
  simp [get_album_endpoint, h]

/-- C4 witness: the hit-path behavior at a concrete cached state. -/
theorem c4_cache_hit_no_fetch_witness :
    (get_album_endpoint env0 "Radiohead" "OK Computer" false
      (stWith (album_cache_key "Radiohead" "OK Computer")
        (CVal.albumV album0))).1 = Except.ok album0 ∧
    (get_album_endpoint env0 "Radiohead" "OK Computer" false
      (stWith (album_cache_key "Radiohead" "OK Computer")
        (CVal.albumV album0))).2.locCalls =
      (stWith (album_cache_key "Radiohead" "OK Computer")
        (CVal.albumV album0)).locCalls ∧
    (get_album_endpoint env0 "Radiohead" "OK Computer" false
      (stWith (album_cache_key "Radiohead" "OK Computer")
        (CVal.albumV album0))).2.scrapeCalls =
      (stWith (album_cache_key "Radiohead" "OK Computer")
        (CVal.albumV album0)).scrapeCalls ∧
    (get_album_endpoint env0 "Radiohead" "OK Computer" false
      (stWith (album_cache_key "Radiohead" "OK Computer")
        (CVal.albumV album0))).2.cache =
      (stWith (album_cache_key "Radiohead" "OK Computer")
        (CVal.albumV album0)).cache :=
  c4_cache_hit_no_fetch env0 "Radiohead" "OK Computer"
    (stWith (album_cache_key "Radiohead" "OK Computer") (CVal.albumV album0))
    album0 (by decide)

/-- An environment whose album scrape fails with a timeout-flavored raw
exception. -/
def envTimeout : Env :=
  { env0 with scrape := fun _ _ _ =>
      Except.error (PyErr.exn "ReadTimeout: upstream timed out") }

/-- An environment whose album scrape fails with a parse-flavored raw
exception. -/
def envParse : Env :=
  { env0 with scrape := fun _ _ _ =>
      Except.error (PyErr.exn "ParseError: album title missing") }

/-- C2: counterexample — two taxonomy-distinct pipeline failures (an
upstream timeout and a parse failure) both reach the API layer as raw
exceptions: the handler maps each to the same status 503 and the entire
surfaced payload is the raw message string `str(e)`, so what the core
surfaces is not a typed/tagged three-way value. -/
theorem c2_counterexample :
    (get_album_endpoint envTimeout "Radiohead" "OK Computer" false st0).1 =
      Except.error ⟨503, "ReadTimeout: upstream timed out"⟩ ∧
    (get_album_endpoint envParse "Radiohead" "OK Computer" false st0).1 =
      Except.error ⟨503, "ParseError: album title missing"⟩ :=
  ⟨rfl, rfl⟩

/-- C2 (amended): the locator's not-found outcome is surfaced as the tagged
value `None` and mapped to status 404 without reading any message text,
while every other pipeline failure reaches the handler as a raw exception
and is mapped, uniformly and independently of its message, to status 503
with `str(e)` as the detail — upstream failures and parse failures are
therefore not distinguishable by transport status. -/
theorem c2_failures_untagged (env : Env) (artist album : String) (st : St)
    (url an t m : String)
    (hm : cacheLookup st (album_cache_key artist album) = none)
    (hl : env.locate artist album = Except.ok (some (url, an, t)))
    (hs : env.scrape url an t = Except.error (PyErr.exn m)) :
    (get_album_endpoint env artist album false st).1 =
      Except.error ⟨503, m⟩ ∧
    (∀ env' : Env, env'.locate artist album = Except.ok none →
      (get_album_endpoint env' artist album false st).1 =
        Except.error ⟨404, "Album not found"⟩) := by
  constructor
  · simp [get_album_endpoint, hm, hl, hs]
  · intro env' hl'
    simp [get_album_endpoint, hm, hl']

/-- An environment whose locator resolves no canonical URL. -/
def envNotFound : Env :=
  { env0 with locate := fun _ _ => Except.ok none }

/-- C2 witness: the amended behavior at concrete inputs. -/
theorem c2_failures_untagged_witness :
    (get_album_endpoint envTimeout "Radiohead" "OK Computer" false st0).1 =
      Except.error ⟨503, "ReadTimeout: upstream timed out"⟩ ∧
    (∀ env' : Env,
      env'.locate "Radiohead" "OK Computer" = Except.ok none →
      (get_album_endpoint env' "Radiohead" "OK Computer" false st0).1 =
        Except.error ⟨404, "Album not found"⟩) :=
  c2_failures_untagged envTimeout "Radiohead" "OK Computer" st0
    "https://www.albumoftheyear.org/album/57-ok-computer.php"
    "Radiohead" "OK Computer" "ReadTimeout: upstream timed out"
    rfl rfl rfl

/-- C3: counterexample — the force-refresh flag is not available on every
resource lookup: `search_albums_endpoint` takes only `query` and `limit`,
so whenever a truthy cache entry exists it is served unconditionally.
With `[res1]` cached under the key for query "q" and limit 3 while the
pipeline would return `[res0]`, the handler returns the cached list and
the search pipeline is never invoked; no argument can bypass this. -/
theorem c3_counterexample :
    (search_albums_endpoint env0 "q" 3
      (stWith (search_cache_key "q" 3) (CVal.searchListV [res1]))).1 =
      Except.ok [res1] ∧
    (search_albums_endpoint env0 "q" 3
      (stWith (search_cache_key "q" 3)
        (CVal.searchListV [res1]))).2.searchCalls = 0 :=
  ⟨rfl, rfl⟩

/-- C3 (amended): on the album, similar-albums and user lookups — but not
on search, which has no such flag — setting `refresh` bypasses the cache
read: whatever the cache holds, the pipeline is invoked, its fresh result
is returned, and the entry under the lookup's key is overwritten with that
result. -/
theorem c3_force_refresh (env : Env) (artist album username : String)
    (limit : Nat) (st : St) (url an t : String) (rec : Album)
    (albums : List Album) (up : UserProfile)
    (hl : env.locate artist album = Except.ok (some (url, an, t)))
    (hs : env.scrape url an t = Except.ok rec)
    (hm : env.similar url limit = Except.ok albums)
    (hu : env.userProfile username = Except.ok up)
    (hlim : similar_limit_ok limit = true) :
    ((get_album_endpoint env artist album true st).1 = Except.ok rec ∧
      (get_album_endpoint env artist album true st).2.scrapeCalls =
        st.scrapeCalls + 1 ∧
      (get_album_endpoint env artist album true st).2.cache
        (album_cache_key artist album) = some (CVal.albumV rec)) ∧
    ((get_similar_albums_endpoint env artist album true limit st).1 =
        Except.ok albums ∧
      (get_similar_albums_endpoint env artist album true limit
        st).2.similarCalls = st.similarCalls + 1 ∧
      (get_similar_albums_endpoint env artist album true limit st).2.cache
        (similar_cache_key artist album limit) =
        some (CVal.albumListV albums)) ∧
    ((get_user_endpoint env username true st).1 = Except.ok up ∧
      (get_user_endpoint env username true st).2.userCalls =
        st.userCalls + 1 ∧
      (get_user_endpoint env username true st).2.cache
        (user_cache_key username) = some (CVal.userV up)) := by
  refine ⟨⟨?_, ?_, ?_⟩, ⟨?_, ?_, ?_⟩, ⟨?_, ?_, ?_⟩⟩ <;>
    simp [get_album_endpoint, get_similar_albums_endpoint, get_user_endpoint,
      hl, hs, hm, hu, hlim, setCache]

/-- C3 witness: force refresh at concrete inputs with a populated
environment. -/
theorem c3_force_refresh_witness :
    (get_album_endpoint env0 "Radiohead" "OK Computer" true st0).1 =
      Except.ok album0 ∧
    (get_similar_albums_endpoint env0 "Radiohead" "OK Computer" true 5
      st0).1 = Except.ok [album0] ∧
    (get_user_endpoint env0 "evrynoiseatonce" true st0).1 =
      Except.ok user0 :=
  ⟨(c3_force_refresh env0 "Radiohead" "OK Computer" "evrynoiseatonce" 5 st0
      "https://www.albumoftheyear.org/album/57-ok-computer.php" "Radiohead"
      "OK Computer" album0 [album0] user0 rfl rfl rfl rfl rfl).1.1,
   (c3_force_refresh env0 "Radiohead" "OK Computer" "evrynoiseatonce" 5 st0
      "https://www.albumoftheyear.org/album/57-ok-computer.php" "Radiohead"
      "OK Computer" album0 [album0] user0 rfl rfl rfl rfl rfl).2.1.1,
   (c3_force_refresh env0 "Radiohead" "OK Computer" "evrynoiseatonce" 5 st0
      "https://www.albumoftheyear.org/album/57-ok-computer.php" "Radiohead"
      "OK Computer" album0 [album0] user0 rfl rfl rfl rfl rfl).2.2.1⟩

/-- C5: when the locator resolves no canonical URL, both (artist, album)
lookups fail with `HTTPException(404, "Album not found")`, re-raised
unchanged by the `except HTTPException` clause; the album scrape and the
similar-albums fetch are never invoked and the cache is unchanged. -/
theorem c5_locator_not_found (env : Env) (artist album : String)
    (refresh : Bool) (limit : Nat) (st : St)
    (hl : env.locate artist album = Except.ok none)
    (hma : cacheLookup st (album_cache_key artist album) = none)
    (hms : cacheLookup st (similar_cache_key artist album limit) = none)
    (hlim : similar_limit_ok limit = true) :
    ((get_album_endpoint env artist album refresh st).1 =
        Except.error ⟨404, "Album not found"⟩ ∧
      (get_album_endpoint env artist album refresh st).2.scrapeCalls =
        st.scrapeCalls ∧
      (get_album_endpoint env artist album refresh st).2.cache = st.cache) ∧
    ((get_similar_albums_endpoint env artist album refresh limit st).1 =
        Except.error ⟨404, "Album not found"⟩ ∧
      (get_similar_albums_endpoint env artist album refresh limit
        st).2.similarCalls = st.similarCalls ∧
      (get_similar_albums_endpoint env artist album refresh limit
        st).2.cache = st.cache) := by
  cases refresh <;>
    refine ⟨⟨?_, ?_, ?_⟩, ⟨?_, ?_, ?_⟩⟩ <;>
      simp [get_album_endpoint, get_similar_albums_endpoint, hl, hma, hms,
        hlim]

/-- C5 witness: the not-found behavior at concrete inputs. -/
theorem c5_locator_not_found_witness :
    ((get_album_endpoint envNotFound "Radiohead" "OK Computer" false st0).1 =
        Except.error ⟨404, "Album not found"⟩ ∧
      (get_album_endpoint envNotFound "Radiohead" "OK Computer" false
        st0).2.scrapeCalls = st0.scrapeCalls ∧
      (get_album_endpoint envNotFound "Radiohead" "OK Computer" false
        st0).2.cache = st0.cache) ∧
    ((get_similar_albums_endpoint envNotFound "Radiohead" "OK Computer"
        false 5 st0).1 = Except.error ⟨404, "Album not found"⟩ ∧
      (get_similar_albums_endpoint envNotFound "Radiohead" "OK Computer"
        false 5 st0).2.similarCalls = st0.similarCalls ∧
      (get_similar_albums_endpoint envNotFound "Radiohead" "OK Computer"
        false 5 st0).2.cache = st0.cache) :=
  c5_locator_not_found envNotFound "Radiohead" "OK Computer" false 5 st0
    rfl rfl rfl rfl

/-- An environment in which the album scrape and the user-profile fetch
both fail with raw exceptions. -/
def envErr : Env :=
  { env0 with
      scrape := fun _ _ _ =>
        Except.error (PyErr.exn "ReadTimeout: upstream timed out"),
      userProfile := fun _ =>
        Except.error (PyErr.exn "ConnectionError: upstream unreachable") }

/-- C8: when the pipeline raises a raw exception after a cache miss, no
cache write is performed — the whole cache function is unchanged on the
error path — and the failure is surfaced as status 503 with `str(e)` as
detail, for both the album and the user endpoints. -/
theorem c8_error_no_cache_write (env : Env) (artist album username : String)
    (st : St) (url an t m mu : String)
    (hma : cacheLookup st (album_cache_key artist album) = none)
    (hl : env.locate artist album = Except.ok (some (url, an, t)))
    (hs : env.scrape url an t = Except.error (PyErr.exn m))
    (hmu : cacheLookup st (user_cache_key username) = none)
    (hu : env.userProfile username = Except.error (PyErr.exn mu)) :
    ((get_album_endpoint env artist album false st).1 =
        Except.error ⟨503, m⟩ ∧
      (get_album_endpoint env artist album false st).2.cache = st.cache) ∧
    ((get_user_endpoint env username false st).1 =
        Except.error ⟨503, mu⟩ ∧
      (get_user_endpoint env username false st).2.cache = st.cache) := by
  refine ⟨⟨?_, ?_⟩, ⟨?_, ?_⟩⟩ <;>
    simp [get_album_endpoint, get_user_endpoint, hma, hmu, hl, hs, hu]

/-- C8 witness: the error path at concrete inputs. -/
theorem c8_error_no_cache_write_witness :
    ((get_album_endpoint envErr "Radiohead" "OK Computer" false st0).1 =
        Except.error ⟨503, "ReadTimeout: upstream timed out"⟩ ∧
      (get_album_endpoint envErr "Radiohead" "OK Computer" false
        st0).2.cache = st0.cache) ∧
    ((get_user_endpoint envErr "evrynoiseatonce" false st0).1 =
        Except.error ⟨503, "ConnectionError: upstream unreachable"⟩ ∧
      (get_user_endpoint envErr "evrynoiseatonce" false st0).2.cache =
        st0.cache) :=
  c8_error_no_cache_write envErr "Radiohead" "OK Computer" "evrynoiseatonce"
    st0 "https://www.albumoftheyear.org/album/57-ok-computer.php" "Radiohead"
    "OK Computer" "ReadTimeout: upstream timed out"
    "ConnectionError: upstream unreachable" rfl rfl rfl rfl rfl

/-- C6: the search result-count limit is accepted exactly when it lies in
the range 1–20; every accepted request answers with a list of at most
`limit` entries (provided every cached list under this request's key obeys
the same bound, which is the invariant the handler's own writes maintain),
and on a cache miss the answer is exactly the `limit`-long initial segment
of the upstream result list, in upstream order. -/
theorem c6_search_limit_bounded (env : Env)
    (upstream : String → List SearchResult) (query : String) (limit : Nat)
    (st : St)
    (hse : env.search = search_albums_model upstream)
    (hlo : 1 ≤ limit) (hhi : limit ≤ 20)
    (hcache : ∀ v, cacheLookup st (search_cache_key query limit) = some v →
      ∃ l, v = CVal.searchListV l ∧ l.length ≤ limit) :
    (∀ l, search_limit_ok l = true ↔ 1 ≤ l ∧ l ≤ 20) ∧
    (∃ res, (search_albums_endpoint env query limit st).1 = Except.ok res ∧
      res.length ≤ limit) ∧
    (cacheLookup st (search_cache_key query limit) = none →
      (search_albums_endpoint env query limit st).1 =
        Except.ok ((upstream query).take limit)) := by
  have hlim : search_limit_ok limit = true := by
    simp [search_limit_ok, hlo, hhi]
  refine ⟨?_, ?_, ?_⟩
  · intro l
    simp [search_limit_ok]
  · rcases hc : cacheLookup st (search_cache_key query limit) with _ | v
    · refine ⟨(upstream query).take limit, ?_, ?_⟩
      · simp [search_albums_endpoint, hc, hse, search_albums_model, hlim]
      · simp [List.length_take]
    · rcases hcache v hc with ⟨l, rfl, hlen⟩
      exact ⟨l, by simp [search_albums_endpoint, hc, hlim], hlen⟩
  · intro hc
    simp [search_albums_endpoint, hc, hse, search_albums_model, hlim]

/-- A fixed two-entry upstream search listing. -/
def upstream0 : String → List SearchResult := fun _ => [res0, res1]

/-- The environment whose search pipeline is the spec-modelled
truncation of `upstream0`. -/
def envSearch : Env := { env0 with search := search_albums_model upstream0 }

/-- C6 witness: the bound and the truncation at concrete inputs — with two
upstream results and limit 1, the answer is the first upstream entry. -/
theorem c6_search_limit_bounded_witness :
    (∀ l, search_limit_ok l = true ↔ 1 ≤ l ∧ l ≤ 20) ∧
    (∃ res,
      (search_albums_endpoint envSearch "Radiohead OK Computer" 1 st0).1 =
        Except.ok res ∧ res.length ≤ 1) ∧
    (cacheLookup st0 (search_cache_key "Radiohead OK Computer" 1) = none →
      (search_albums_endpoint envSearch "Radiohead OK Computer" 1 st0).1 =
        Except.ok ((upstream0 "Radiohead OK Computer").take 1)) :=
  c6_search_limit_bounded envSearch upstream0 "Radiohead OK Computer" 1 st0
    rfl (by decide) (by decide)
    (fun v h => by simp [cacheLookup, st0] at h)

/-- C9: the similar-albums cache key embeds the requested limit, so two
validated requests for the same (artist, album) with different limits use
distinct cache keys; consequently a request whose own key has no entry
takes the miss path — `record_request(cache_hit=False)` and a fresh
`get_album_url` call — even if the pair is cached under another limit,
rather than truncating or extending that cached list. -/
theorem c9_similar_key_includes_limit (env : Env) (artist album : String)
    (l1 l2 : Nat) (st : St)
    (h1 : similar_limit_ok l1 = true) (h2 : similar_limit_ok l2 = true)
    (hne : l1 ≠ l2)
    (hmiss : cacheLookup st (similar_cache_key artist album l2) = none) :
    similar_cache_key artist album l1 ≠ similar_cache_key artist album l2 ∧
    (get_similar_albums_endpoint env artist album false l2 st).2.misses =
      st.misses + 1 ∧
    (get_similar_albums_endpoint env artist album false l2 st).2.locCalls =
      st.locCalls + 1 := by
  obtain ⟨hb1a, hb1b⟩ : 1 ≤ l1 ∧ l1 ≤ 10 := by
    simpa [similar_limit_ok] using h1
  obtain ⟨hb2a, hb2b⟩ : 1 ≤ l2 ∧ l2 ≤ 10 := by
    simpa [similar_limit_ok] using h2
  have hmain :
      (get_similar_albums_endpoint env artist album false l2 st).2.misses =
        st.misses + 1 ∧
      (get_similar_albums_endpoint env artist album false l2 st).2.locCalls =
        st.locCalls + 1 := by
    rcases hl : env.locate artist album with e | o
    · rcases e with ⟨c, d⟩ | m <;>
        simp [get_similar_albums_endpoint, h2, hmiss, hl]
    · rcases o with _ | ⟨u, an, t⟩
      · simp [get_similar_albums_endpoint, h2, hmiss, hl]
      · rcases hsim : env.similar u l2 with e2 | albums
        · rcases e2 with ⟨c, d⟩ | m <;>
            simp [get_similar_albums_endpoint, h2, hmiss, hl, hsim]
        · simp [get_similar_albums_endpoint, h2, hmiss, hl, hsim, setCache]
  refine ⟨?_, hmain.1, hmain.2⟩
  intro heq
  have hd := congrArg String.data heq
  simp only [similar_cache_key, String.data_append, List.append_assoc] at hd
  have hr : Nat.repr l1 = Nat.repr l2 :=
    string_data_eq (List.append_cancel_left (List.append_cancel_left
      (List.append_cancel_left (List.append_cancel_left
        (List.append_cancel_left hd)))))
  interval_cases l1 <;> interval_cases l2 <;>
    first
      | exact hne rfl
      | exact absurd hr (by decide)

/-- C9 witness: with `[album0]` cached for limit 5, the same pair requested
with limit 3 uses a different key and takes the miss path. -/
theorem c9_similar_key_includes_limit_witness :
    similar_cache_key "Radiohead" "OK Computer" 5 ≠
      similar_cache_key "Radiohead" "OK Computer" 3 ∧
    (get_similar_albums_endpoint env0 "Radiohead" "OK Computer" false 3
      (stWith (similar_cache_key "Radiohead" "OK Computer" 5)
        (CVal.albumListV [album0]))).2.misses =
      (stWith (similar_cache_key "Radiohead" "OK Computer" 5)
        (CVal.albumListV [album0])).misses + 1 ∧
    (get_similar_albums_endpoint env0 "Radiohead" "OK Computer" false 3
      (stWith (similar_cache_key "Radiohead" "OK Computer" 5)
        (CVal.albumListV [album0]))).2.locCalls =
      (stWith (similar_cache_key "Radiohead" "OK Computer" 5)
        (CVal.albumListV [album0])).locCalls + 1 :=
  c9_similar_key_includes_limit env0 "Radiohead" "OK Computer" 5 3
    (stWith (similar_cache_key "Radiohead" "OK Computer" 5)
      (CVal.albumListV [album0]))
    (by decide) (by decide) (by decide) (by decide)

/-- C10: `record_response_time` (counted by `rtCount`) is invoked only on
the successful cache-miss path of the album endpoint: any request that
ends in an error and any request served from cache leave the counter
unchanged, and a request that reaches the pipeline and succeeds increments
it exactly once. -/
theorem c10_response_time_success_miss_only (env : Env)
    (artist album : String) (refresh : Bool) (st : St) :
    (∀ e, (get_album_endpoint env artist album refresh st).1 =
        Except.error e →
      (get_album_endpoint env artist album refresh st).2.rtCount =
        st.rtCount) ∧
    (∀ a, refresh = false →
      cacheLookup st (album_cache_key artist album) =
        some (CVal.albumV a) →
      (get_album_endpoint env artist album refresh st).2.rtCount =
        st.rtCount) ∧
    (∀ url an t rec,
      env.locate artist album = Except.ok (some (url, an, t)) →
      env.scrape url an t = Except.ok rec →
      (refresh = true ∨
        cacheLookup st (album_cache_key artist album) = none) →
      (get_album_endpoint env artist album refresh st).2.rtCount =
        st.rtCount + 1) := by
  refine ⟨?_, ?_, ?_⟩
  · intro e he
    cases refresh
    · rcases hc : cacheLookup st (album_cache_key artist album) with _ | v
      · rcases hl : env.locate artist album with pe | o
        · rcases pe with ⟨c, d⟩ | m <;> simp [get_album_endpoint, hc, hl]
        · rcases o with _ | ⟨u, an, t⟩
          · simp [get_album_endpoint, hc, hl]
          · rcases hs : env.scrape u an t with pe2 | rec
            · rcases pe2 with ⟨c, d⟩ | m <;>
                simp [get_album_endpoint, hc, hl, hs]
            · simp [get_album_endpoint, hc, hl, hs] at he
      · rcases v with a | l | u | l
        · simp [get_album_endpoint, hc] at he
        · simp [get_album_endpoint, hc]
        · simp [get_album_endpoint, hc]
        · simp [get_album_endpoint, hc]
    · rcases hl : env.locate artist album with pe | o
      · rcases pe with ⟨c, d⟩ | m <;> simp [get_album_endpoint, hl]
      · rcases o with _ | ⟨u, an, t⟩
        · simp [get_album_endpoint, hl]
        · rcases hs : env.scrape u an t with pe2 | rec
          · rcases pe2 with ⟨c, d⟩ | m <;> simp [get_album_endpoint, hl, hs]
          · simp [get_album_endpoint, hl, hs] at he
  · intro a hrefresh hc
    subst hrefresh
    simp [get_album_endpoint, hc]
  · intro url an t rec hl hs hor
    rcases hor with hrefresh | hc
    · subst hrefresh
      simp [get_album_endpoint, hl, hs, setCache]
    · cases refresh <;> simp [get_album_endpoint, hc, hl, hs, setCache]

/-- C10 witness: at concrete inputs, an error request and a cache-hit
request leave the counter unchanged and a successful miss increments
it. -/
theorem c10_response_time_success_miss_only_witness :
    (get_album_endpoint envNotFound "Radiohead" "OK Computer" false
      st0).2.rtCount = st0.rtCount ∧
    (get_album_endpoint env0 "Radiohead" "OK Computer" false
      (stWith (album_cache_key "Radiohead" "OK Computer")
        (CVal.albumV album0))).2.rtCount =
      (stWith (album_cache_key "Radiohead" "OK Computer")
        (CVal.albumV album0)).rtCount ∧
    (get_album_endpoint env0 "Radiohead" "OK Computer" false
      st0).2.rtCount = st0.rtCount + 1 :=
  ⟨(c10_response_time_success_miss_only envNotFound "Radiohead"
      "OK Computer" false st0).1 ⟨404, "Album not found"⟩ rfl,
   (c10_response_time_success_miss_only env0 "Radiohead" "OK Computer"
      false (stWith (album_cache_key "Radiohead" "OK Computer")
        (CVal.albumV album0))).2.1 album0 rfl (by decide),
   (c10_response_time_success_miss_only env0 "Radiohead" "OK Computer"
      false st0).2.2
     "https://www.albumoftheyear.org/album/57-ok-computer.php" "Radiohead"
     "OK Computer" album0 rfl rfl (Or.inr rfl)⟩
